import Mathlib

/-!
Verification development for the "Will it Rain on My Parade?" event-weather
dashboard (two near-duplicate Streamlit scripts, `app.py` and `main_app.py`,
whose data/logic components are identical).  The external collaborators
(HTTP, geocoder, pickle artifact, Streamlit cache) are modelled as explicit
oracle parameters; machine floats are modelled over `ℚ`; Python exceptions
caught at a boundary become `Option`/sum results, and an exception that the
source would NOT catch becomes an explicit `uncaughtIndexError`-style
constructor.
-/

namespace WillItRain

/-! ### Proleptic Gregorian calendar, as Python's `datetime.date`

`get_historical_daily_rain` computes `event_date - timedelta(days=i*365)`.
We mirror CPython's `datetime` ordinal arithmetic (`toordinal` /
`_ord2ymd`): ordinal 1 is 0001-01-01. -/

/-- Leap-year test of the proleptic Gregorian calendar (CPython `_is_leap`). -/
def isLeap (y : Nat) : Bool :=
  (y % 4 == 0 && y % 100 != 0) || y % 400 == 0

/-- Days in month `m` (1..12) of year `y` (CPython `_days_in_month`). -/
def daysInMonth (y m : Nat) : Nat :=
  if m == 2 then (if isLeap y then 29 else 28)
  else if m == 4 || m == 6 || m == 9 || m == 11 then 30
  else 31

/-- Days in year `y` that precede month `m` (CPython `_days_before_month`). -/
def daysBeforeMonth (y m : Nat) : Nat :=
  (List.range' 1 (m - 1)).foldl (fun acc k => acc + daysInMonth y k) 0

/-- Days before January 1st of year `y` (CPython `_days_before_year`). -/
def daysBeforeYear (y : Nat) : Nat :=
  let py := y - 1
  py * 365 + py / 4 - py / 100 + py / 400

/-- A calendar date, as Python's `datetime.date` (fields assumed valid where
the source constructs them). -/
structure Date where
  year : Nat
  month : Nat
  day : Nat
deriving DecidableEq

/-- Proleptic Gregorian ordinal of a date (CPython `date.toordinal`):
0001-01-01 is ordinal 1. -/
def toOrdinal (d : Date) : Nat :=
  daysBeforeYear d.year + daysBeforeMonth d.year d.month + d.day

/-- Walk months `m, m+1, ...` consuming a 0-based day-of-year remainder,
returning (month, 1-based day); `fuel` bounds the walk at month 12. -/
def monthDayAux (y : Nat) : Nat → Nat → Nat → Nat × Nat
  | m, 0, doy => (m, doy + 1)
  | m, fuel + 1, doy =>
    if doy < daysInMonth y m then (m, doy + 1)
    else monthDayAux y (m + 1) fuel (doy - daysInMonth y m)

/-- Month and day of a 0-based day-of-year index in year `y`. -/
def monthDay (y doy : Nat) : Nat × Nat :=
  monthDayAux y 1 11 doy

/-- Date of a proleptic Gregorian ordinal (CPython `_ord2ymd`):
divide out 400-year, 100-year, 4-year and 1-year cycles, with the
`n1 == 4 or n100 == 4` fixup for December 31st of a cycle-final year. -/
def fromOrdinal (n : Nat) : Date :=
  let n0 := n - 1
  let n400 := n0 / 146097
  let r1 := n0 % 146097
  let n100 := r1 / 36524
  let r2 := r1 % 36524
  let n4 := r2 / 1461
  let r3 := r2 % 1461
  let n1 := r3 / 365
  let doy := r3 % 365
  let year := n400 * 400 + n100 * 100 + n4 * 4 + n1 + 1
  if n1 == 4 || n100 == 4 then
    ⟨year - 1, 12, 31⟩
  else
    let md := monthDay year doy
    ⟨year, md.1, md.2⟩

/-- `d - timedelta(days = k)` of Python, via the ordinal. -/
def Date.subDays (d : Date) (k : Nat) : Date :=
  fromOrdinal (toOrdinal d - k)

/-! ### History fetcher (`get_historical_daily_rain`)

One archive-API call per offset `i = 5, 4, 3, 2, 1`.  The response oracle
gives, per offset, either a raised exception (`fail`: any error out of
`requests.get(url).json()`) or a parsed JSON body.  In the body, the
`daily` key, the `precipitation_sum` key and the `[0]` element may each be
missing — the resulting `KeyError`/`IndexError` is caught by the
`except Exception: continue` and the offset is skipped — while a JSON
`null` element parses to Python `None` (`Option.none` here) and is NOT an
exception. -/

/-- The `daily` object of an archive-API response body. -/
structure HistDaily where
  precipitation_sum : Option (List (Option ℚ))
deriving DecidableEq

/-- A parsed archive-API response body (`daily` key may be absent). -/
structure HistJson where
  daily : Option HistDaily
deriving DecidableEq

/-- Outcome of one `requests.get(url).json()` against the archive API. -/
inductive HistResponse
  | fail
  | ok (body : HistJson)
deriving DecidableEq

/-- One row appended to `history_data`: `{'Year': ..., 'Rainfall (mm)': ...}`. -/
structure HistPair where
  year : Nat
  rainfall : Option ℚ
deriving DecidableEq

/-- One loop iteration of `get_historical_daily_rain` at offset `i`:
`past_date = event_date - timedelta(days=i*365)`, then
`res['daily']['precipitation_sum'][0]`; `none` means the iteration's
`except Exception: continue` fired and nothing was appended. -/
def histStep (event_date : Date) (i : Nat) (r : HistResponse) : Option HistPair :=
  match r with
  | .fail => none
  | .ok body =>
    match body.daily with
    | none => none
    | some d =>
      match d.precipitation_sum with
      | none => none
      | some l =>
        match l.head? with
        | none => none
        | some v => some ⟨(event_date.subDays (i * 365)).year, v⟩

/-- `get_historical_daily_rain(latitude, longitude, event_date)`: the rows of
the returned DataFrame, for `i in range(5, 0, -1)`.  Coordinates only shape
the request URL, so the oracle `resp` is indexed by the offset alone. -/
def get_historical_daily_rain (event_date : Date) (resp : Nat → HistResponse) :
    List HistPair :=
  [5, 4, 3, 2, 1].filterMap (fun i => histStep event_date i (resp i))

/-- The rainfall value at JSON path `daily.precipitation_sum[0]` of an
archive-API outcome, when every step of that path exists (the value itself
may still be JSON `null`, the inner `none`). -/
def histHead : HistResponse → Option (Option ℚ)
  | .fail => none
  | .ok body => body.daily.bind fun d => d.precipitation_sum.bind List.head?

/-! ### Forecast fetcher (`get_forecast_data`)

The body is `res = requests.get(url); res.raise_for_status(); return res.json()`
with `except Exception as e: st.error(...); return None`.
`raise_for_status` raises exactly for status codes 400..599.  The oracle is
the outcome of the single HTTP exchange; a body of `none` means `res.json()`
raises (malformed payload). -/

/-- The `daily` object of a forecast response: three parallel arrays. -/
structure DailyData where
  temperature_2m_max : List ℚ
  temperature_2m_min : List ℚ
  windspeed_10m_max : List ℚ
deriving DecidableEq

/-- A parsed forecast response body.  Only the `daily` member is consumed by
the prediction paths; the `hourly` member feeds only the matplotlib chart and
is elided. -/
structure ForecastPayload where
  daily : Option DailyData
deriving DecidableEq

/-- Outcome of the one `requests.get` against the forecast endpoint. -/
inductive HttpOutcome
  | networkError
  | response (status : Nat) (body : Option ForecastPayload)
deriving DecidableEq

/-- `get_forecast_data(latitude, longitude, event_date)` run against an HTTP
outcome: the returned value paired with whether the `except` branch showed
its `st.error` message.  Total: every exception of the body is caught. -/
def get_forecast_data (o : HttpOutcome) : Option ForecastPayload × Bool :=
  match o with
  | .networkError => (none, true)
  | .response status body =>
    if 400 ≤ status ∧ status < 600 then (none, true)
    else
      match body with
      | some payload => (some payload, false)
      | none => (none, true)

/-! ### Classifier artifact and the two prediction views -/

/-- The opaque pre-trained classifier: its two methods over an `input_df`,
here an ordered column list (column name, value at row 0). -/
structure RainModel where
  predict : List (String × ℚ) → Nat
  predict_proba : List (String × ℚ) → ℚ

/-- `load_model(model_path)` outcomes: the artifact file is missing
(`FileNotFoundError`), fails to deserialize (any other exception), or loads. -/
inductive ArtifactState
  | missing
  | corrupt
  | valid (m : RainModel)

/-- `load_model`: the returned model paired with whether an `st.error` was
shown.  Both failure branches are caught inside the function. -/
def load_model : ArtifactState → Option RainModel × Bool
  | .missing => (none, true)
  | .corrupt => (none, true)
  | .valid m => (some m, false)

/-- The `input_df` built by both views:
`pd.DataFrame({'temperature_2m_max': [daily_data['temperature_2m_max'][0]], ...})`.
`none` when an array is empty, in which case the `[0]` raises `IndexError`
— which NO handler in either view catches. -/
def input_df (dd : DailyData) : Option (List (String × ℚ)) :=
  match dd.temperature_2m_max.head?, dd.temperature_2m_min.head?,
      dd.windspeed_10m_max.head? with
  | some tmax, some tmin, some wind =>
    some [("temperature_2m_max", tmax), ("temperature_2m_min", tmin),
      ("windspeed_10m_max", wind)]
  | _, _, _ => none

/-- What the Forecast Dashboard section renders. -/
inductive DashboardView
  | metrics (df : List (String × ℚ)) (proba : ℚ)
  | fallbackWarning
  | uncaughtIndexError

/-- The Forecast Dashboard section: guarded by
`if model and forecast_data and 'daily' in forecast_data:`, then builds
`input_df` and calls `model.predict_proba(input_df)[0][1]`; the `else`
branch is `st.warning(...)`. -/
def forecastDashboard (model : Option RainModel) (fd : Option ForecastPayload) :
    DashboardView :=
  match model, fd with
  | some m, some payload =>
    match payload.daily with
    | some dd =>
      match input_df dd with
      | some df => .metrics df (m.predict_proba df)
      | none => .uncaughtIndexError
    | none => .fallbackWarning
  | _, _ => .fallbackWarning

/-- The recommendation attached to each risk tier of the Suggestions view. -/
inductive Advice
  | indoorBackup
  | coveredStandby
  | favorable
deriving DecidableEq

/-- The risk-tier branch of the Suggestions section, from the classifier
output: `if prediction == 1 and prediction_proba > 0.6: ... elif
prediction == 1: ... else: ...`.  The threshold literal 0.6 is modelled as
the rational 6/10. -/
def suggestionFor (prediction : Nat) (proba : ℚ) : String × Advice :=
  if prediction = 1 ∧ proba > 6 / 10 then
    ("High Risk of Rain 🌧️", .indoorBackup)
  else if prediction = 1 then
    ("Moderate Risk of Showers 🌦️", .coveredStandby)
  else
    ("Low Risk of Rain ☀️", .favorable)

/-- What the Suggestions section renders. -/
inductive SuggestionsView
  | suggestion (df : List (String × ℚ)) (pred : Nat) (proba : ℚ)
      (risk : String) (advice : Advice)
  | unavailableError
  | uncaughtIndexError

/-- The Suggestions section: same guard as the dashboard, then
`prediction = model.predict(input_df)[0]`,
`prediction_proba = model.predict_proba(input_df)[0][1]`, then the
risk-tier branch; the `else` branch is `st.error(...)`. -/
def suggestionsView (model : Option RainModel) (fd : Option ForecastPayload) :
    SuggestionsView :=
  match model, fd with
  | some m, some payload =>
    match payload.daily with
    | some dd =>
      match input_df dd with
      | some df =>
        let pred := m.predict df
        let proba := m.predict_proba df
        let ra := suggestionFor pred proba
        .suggestion df pred proba ra.1 ra.2
      | none => .uncaughtIndexError
    | none => .unavailableError
  | _, _ => .unavailableError

/-! ### Event Input geocoding block -/

/-- Outcome of `geolocator.geocode(location_name)`: the call raises, returns
`None` (no match), or returns a location. -/
inductive GeocodeOutcome
  | serviceError
  | noMatch
  | found (address : String) (lat lon : ℚ)

/-- The coordinate part of the session state. -/
structure SessionCoords where
  latitude : ℚ
  longitude : ℚ
deriving DecidableEq

/-- The message the geocoding block emits. -/
inductive GeocodeMessage
  | successFound (address : String)
  | warningNotFound
  | errorService
deriving DecidableEq

/-- The Event Input geocoding block: on a match it assigns
`st.session_state.latitude/longitude`; the `else` branch shows
`st.warning("Location not found...")`; the `except` branch shows
`st.error("Geocoding service error...")`.  Both failure paths leave the
session coordinates untouched. -/
def eventInputGeocode (s : SessionCoords) (o : GeocodeOutcome) :
    SessionCoords × GeocodeMessage :=
  match o with
  | .found addr lat lon => (⟨lat, lon⟩, .successFound addr)
  | .noMatch => (s, .warningNotFound)
  | .serviceError => (s, .errorService)

/-! ### Time-bounded memoization (`@st.cache_data(ttl="1h")`)

Modelled from the spec: the cache the `st.cache_data` decorator puts in
front of `get_forecast_data` is framework code absent from the repository;
the spec describes it as a mapping keyed by `(lat, lon, date)` holding each
value for a one-hour time-to-live, consulted before any network call
(§4.2, §9). -/

/-- An explicit TTL cache: entries are (key, value, time stored). -/
structure TtlCache (κ α : Type) where
  entries : List (κ × α × Nat)

/-- The cache with nothing in it. -/
def TtlCache.empty (κ α : Type) : TtlCache κ α := ⟨[]⟩

/-- Walk the entry list: the first entry for `k` still inside its
time-to-live window. -/
def ttlFind {κ α : Type} [DecidableEq κ] (k : κ) (now ttl : Nat) :
    List (κ × α × Nat) → Option α
  | [] => none
  | e :: rest =>
    if e.1 = k ∧ now < e.2.2 + ttl then some e.2.1 else ttlFind k now ttl rest

/-- Look `k` up in the cache at time `now`. -/
def ttlLookup {κ α : Type} [DecidableEq κ] (c : TtlCache κ α) (k : κ)
    (now ttl : Nat) : Option α :=
  ttlFind k now ttl c.entries

/-- A memoized call: on a hit return the cached value with no underlying
call; on a miss call `f`, store and return its value.  The Bool records
whether the underlying call was issued. -/
def cachedCall {κ α : Type} [DecidableEq κ] (f : κ → α) (c : TtlCache κ α)
    (k : κ) (now ttl : Nat) : α × TtlCache κ α × Bool :=
  match ttlLookup c k now ttl with
  | some v => (v, c, false)
  | none => (f k, ⟨(k, f k, now) :: c.entries⟩, true)

/-- The memoization key of `get_forecast_data`: its three arguments. -/
def ForecastKey : Type := ℚ × ℚ × Date

instance : DecidableEq ForecastKey := by
  unfold ForecastKey; infer_instance

/-- The one-hour time-to-live of `@st.cache_data(ttl="1h")`, in seconds. -/
def forecastTtl : Nat := 3600

/-- `fetch_forecast` as the app calls it: `get_forecast_data` behind the
one-hour cache.  `net` gives the HTTP outcome per key; only the returned
value (not the error flag) is memoized, as the decorator caches the
function's return value. -/
def fetch_forecast (net : ForecastKey → HttpOutcome)
    (c : TtlCache ForecastKey (Option ForecastPayload)) (k : ForecastKey)
    (now : Nat) : Option ForecastPayload × TtlCache ForecastKey (Option ForecastPayload) × Bool :=
  cachedCall (fun k' => (get_forecast_data (net k')).1) c k now forecastTtl

/-! ### Concrete instances used by closed statements -/

/-- A concrete classifier stand-in. -/
def demoModel : RainModel :=
  ⟨fun _ => 1, fun _ => 7 / 10⟩

/-- An archive-API oracle that answers every offset with rainfall 0. -/
def histAllOk : Nat → HistResponse :=
  fun _ => .ok ⟨some ⟨some [some 0]⟩⟩

/-- A forecast payload whose `daily` key is present but whose arrays are
empty: the upstream returned no daily record. -/
def emptyDailyPayload : ForecastPayload :=
  ⟨some ⟨[], [], []⟩⟩

/-- A well-formed forecast body with one daily record. -/
def oneDayPayload : ForecastPayload :=
  ⟨some ⟨[31], [24], [12]⟩⟩

/-- An archive-API oracle whose one daily value is JSON `null`. -/
def histNullResp : Nat → HistResponse :=
  fun _ => .ok ⟨some ⟨some [none]⟩⟩

/-- A network oracle answering every forecast key with a 200 response. -/
def demoNet : ForecastKey → HttpOutcome :=
  fun _ => .response 200 (some oneDayPayload)

/-- A concrete memoization key: the default session coordinates and a date. -/
def demoKey : ForecastKey :=
  (284 / 10, 7731 / 100, ⟨2025, 10, 13⟩)

/-! ### Helper lemmas -/

/-- `filterMap` is the `map` of a total representative over the kept
elements, for any `g` agreeing with `f` where `f` is `some`. -/
lemma filterMap_eq_map_filter {α β : Type} (f : α → Option β) (g : α → β)
    (l : List α) (hg : ∀ a : α, ∀ b ∈ f a, g a = b) :
    l.filterMap f = (l.filter (fun a => (f a).isSome)).map g := by
  induction l with
  | nil => rfl
  | cons a t ih =>
    cases hfa : f a with
    | none => simpa [List.filterMap_cons, List.filter_cons, hfa] using ih
    | some b =>
      have := hg a b (by simp [hfa])
      simp [List.filterMap_cons, List.filter_cons, hfa, ih, this]

/-- Pointwise weakening a `filterMap` function (dropping some elements,
keeping the rest unchanged) yields a sublist. -/
lemma filterMap_sublist_of_agree {α β : Type} {f g : α → Option β}
    (l : List α) (h : ∀ a ∈ l, f a = none ∨ f a = g a) :
    List.Sublist (l.filterMap f) (l.filterMap g) := by
  induction l with
  | nil => simp
  | cons a t ih =>
    have ht := ih (fun x hx => h x (List.mem_cons_of_mem a hx))
    rcases h a (List.mem_cons_self a t) with ha | ha
    · cases hga : g a with
      | none => simpa [List.filterMap_cons, ha, hga] using ht
      | some b =>
        simp only [List.filterMap_cons, ha, hga]
        exact ht.cons b
    · cases hga : g a with
      | none => simpa [List.filterMap_cons, ha, hga] using ht
      | some b =>
        simp only [List.filterMap_cons, ha, hga]
        exact ht.cons₂ b

/-- One history iteration, through the `histHead` path view. -/
lemma histStep_eq_histHead (event_date : Date) (i : Nat) (r : HistResponse) :
    histStep event_date i r
      = (histHead r).map (fun v => ⟨(event_date.subDays (i * 365)).year, v⟩) := by
  cases r with
  | fail => rfl
  | ok body =>
    cases hd : body.daily with
    | none => simp [histStep, histHead, hd]
    | some d =>
      cases hs : d.precipitation_sum with
      | none => simp [histStep, histHead, hd, hs]
      | some l =>
        cases hh : l.head? with
        | none => simp [histStep, histHead, hd, hs, hh]
        | some v => simp [histStep, histHead, hd, hs, hh]

/-- Shape of a successfully built `input_df`. -/
lemma input_df_some {dd : DailyData} {df : List (String × ℚ)}
    (h : input_df dd = some df) :
    ∃ tmax tmin wind,
      dd.temperature_2m_max.head? = some tmax ∧
      dd.temperature_2m_min.head? = some tmin ∧
      dd.windspeed_10m_max.head? = some wind ∧
      df = [("temperature_2m_max", tmax), ("temperature_2m_min", tmin),
        ("windspeed_10m_max", wind)] := by
  unfold input_df at h
  cases h1 : dd.temperature_2m_max.head? with
  | none => rw [h1] at h; cases h
  | some tmax =>
    cases h2 : dd.temperature_2m_min.head? with
    | none => rw [h1, h2] at h; cases h
    | some tmin =>
      cases h3 : dd.windspeed_10m_max.head? with
      | none => rw [h1, h2, h3] at h; cases h
      | some wind =>
        rw [h1, h2, h3] at h
        exact ⟨tmax, tmin, wind, rfl, rfl, rfl, (Option.some_inj.mp h).symm⟩

/-- Inversion for the dashboard's prediction branch. -/
lemma forecastDashboard_metrics_inv {model : Option RainModel}
    {fd : Option ForecastPayload} {df : List (String × ℚ)} {proba : ℚ}
    (h : forecastDashboard model fd = .metrics df proba) :
    ∃ m payload dd, model = some m ∧ fd = some payload ∧
      payload.daily = some dd ∧ input_df dd = some df ∧
      proba = m.predict_proba df := by
  cases model with
  | none => cases h
  | some m =>
    cases fd with
    | none => cases h
    | some payload =>
      simp only [forecastDashboard] at h
      split at h
      next dd hd =>
        split at h
        next df0 hdf =>
          cases h
          exact ⟨m, payload, dd, rfl, rfl, hd, hdf, rfl⟩
        next hdf => cases h
      next hd => cases h

/-- Inversion for the Suggestions view's prediction branch. -/
lemma suggestionsView_suggestion_inv {model : Option RainModel}
    {fd : Option ForecastPayload} {df : List (String × ℚ)} {pred : Nat}
    {proba : ℚ} {risk : String} {adv : Advice}
    (h : suggestionsView model fd = .suggestion df pred proba risk adv) :
    ∃ m payload dd, model = some m ∧ fd = some payload ∧
      payload.daily = some dd ∧ input_df dd = some df ∧
      pred = m.predict df ∧ proba = m.predict_proba df ∧
      (risk, adv) = suggestionFor pred proba := by
  cases model with
  | none => cases h
  | some m =>
    cases fd with
    | none => cases h
    | some payload =>
      simp only [suggestionsView] at h
      split at h
      next dd hd =>
        split at h
        next df0 hdf =>
          cases h
          exact ⟨m, payload, dd, rfl, rfl, hd, hdf, rfl, rfl, rfl⟩
        next hdf => cases h
      next hd => cases h

/-! ### The claims -/

/-- C1: the Suggestions risk-tier branch is a total, deterministic, pure
function of the classifier output pair, mapping it to exactly one of three
mutually exclusive tiers: `will_rain` (prediction = 1) with probability
above 0.6 gives "High Risk" with the indoor-backup recommendation,
`will_rain` with probability at most 0.6 gives "Moderate Risk" with the
covered-standby recommendation, and not-`will_rain` gives "Low Risk" with
the favorable-conditions message. -/
theorem suggestion_risk_tiers (prediction : Nat) (proba : ℚ) :
    (suggestionFor prediction proba = ("High Risk of Rain 🌧️", Advice.indoorBackup)
        ↔ prediction = 1 ∧ proba > 6 / 10) ∧
    (suggestionFor prediction proba = ("Moderate Risk of Showers 🌦️", Advice.coveredStandby)
        ↔ prediction = 1 ∧ proba ≤ 6 / 10) ∧
    (suggestionFor prediction proba = ("Low Risk of Rain ☀️", Advice.favorable)
        ↔ prediction ≠ 1) := by
  unfold suggestionFor
  split_ifs with h1 h2
  · exact ⟨iff_of_true rfl h1,
      iff_of_false (by decide) (fun h => absurd h1.2 (not_lt.2 h.2)),
      iff_of_false (by decide) (fun h => h h1.1)⟩
  · exact ⟨iff_of_false (by decide) h1,
      iff_of_true rfl ⟨h2, le_of_not_lt (fun hgt => h1 ⟨h2, hgt⟩)⟩,
      iff_of_false (by decide) (fun h => h h2)⟩
  · exact ⟨iff_of_false (by decide) (fun h => h2 h.1),
      iff_of_false (by decide) (fun h => h2 h.1),
      iff_of_true rfl h2⟩

/-- C6: a classifier-artifact load failure (missing file or deserialization
error) makes `load_model` report the error and return no model, and with no
model both prediction-dependent views render their unavailable/warning
branch instead of computing a prediction; every failure path is caught
(both `load_model` and the views are total here). -/
theorem load_failure_degrades (a : ArtifactState) (fd : Option ForecastPayload) :
    ((a = .missing ∨ a = .corrupt) → load_model a = (none, true)) ∧
    ((load_model a).1 = none →
        forecastDashboard (load_model a).1 fd = .fallbackWarning ∧
        suggestionsView (load_model a).1 fd = .unavailableError) := by
  cases a with
  | missing => exact ⟨fun _ => rfl, fun _ => ⟨rfl, rfl⟩⟩
  | corrupt => exact ⟨fun _ => rfl, fun _ => ⟨rfl, rfl⟩⟩
  | valid m =>
    refine ⟨fun h => ?_, fun h => ?_⟩
    · rcases h with h | h <;> exact ArtifactState.noConfusion h
    · exact Option.noConfusion h

/-- C8: on geocoding failure (service error or no match) the stored
coordinates are left unchanged and a warning or error message is surfaced;
both failure outcomes are handled (the block is total). -/
theorem geocode_failure_frame (s : SessionCoords) :
    ((eventInputGeocode s .noMatch).1 = s ∧
      (eventInputGeocode s .noMatch).2 = .warningNotFound) ∧
    ((eventInputGeocode s .serviceError).1 = s ∧
      (eventInputGeocode s .serviceError).2 = .errorService) :=
  ⟨⟨rfl, rfl⟩, ⟨rfl, rfl⟩⟩

/-- C5 counterexample: a 300-status response — non-2xx — with a well-formed
JSON body is returned as a success, with no user-visible message, because
`raise_for_status` raises only for statuses 400..599. -/
theorem forecast_non2xx_cex :
    get_forecast_data (.response 300 (some oneDayPayload))
        = (some oneDayPayload, false) ∧
    ¬ (200 ≤ 300 ∧ 300 ≤ 299) :=
  ⟨rfl, by decide⟩

/-- C5 amended: `get_forecast_data` returns `none` and surfaces a
user-visible message on network error, on a 4xx/5xx response (the statuses
`raise_for_status` raises for — a non-2xx status below 400 with a parseable
body is returned as a success), or on a malformed payload; otherwise it
returns the parsed JSON response.  It never raises past its boundary: the
embedding is a total function and every exception of its body is caught. -/
theorem forecast_fetch_boundary :
    (get_forecast_data .networkError = (none, true)) ∧
    (∀ status : Nat, ∀ body : Option ForecastPayload, 400 ≤ status → status < 600 →
        get_forecast_data (.response status body) = (none, true)) ∧
    (∀ status : Nat, ¬ (400 ≤ status ∧ status < 600) →
        get_forecast_data (.response status none) = (none, true)) ∧
    (∀ status : Nat, ∀ payload : ForecastPayload, ¬ (400 ≤ status ∧ status < 600) →
        get_forecast_data (.response status (some payload))
          = (some payload, false)) := by
  refine ⟨rfl, ?_, ?_, ?_⟩
  · intro status body h4 h6
    simp [get_forecast_data, if_pos (⟨h4, h6⟩ : 400 ≤ status ∧ status < 600)]
  · intro status h
    simp [get_forecast_data, if_neg h]
  · intro status payload h
    simp [get_forecast_data, if_neg h]

/-- C2 counterexample: with the model present and a payload whose `daily`
key is present but holds empty arrays — the upstream returned no daily
record — both views index into the missing data (`[0]` raises an uncaught
`IndexError`) instead of rendering their fallback warning. -/
theorem forecast_daily_guard_cex :
    forecastDashboard (some demoModel) (some emptyDailyPayload)
        = .uncaughtIndexError ∧
    suggestionsView (some demoModel) (some emptyDailyPayload)
        = .uncaughtIndexError :=
  ⟨rfl, rfl⟩

/-- C2 amended: the views guard only on the model being present, the payload
being present, and the payload having the `daily` KEY.  When the model or
payload is absent, or the key is absent, each view renders its fallback
warning and no prediction is computed; a prediction is computed only when
additionally the daily arrays are nonempty; when the guard passes but an
array is empty, the view raises an uncaught `IndexError` rather than
warn. -/
theorem forecast_daily_guard_amended (model : Option RainModel)
    (fd : Option ForecastPayload) :
    (model = none →
        forecastDashboard model fd = .fallbackWarning ∧
        suggestionsView model fd = .unavailableError) ∧
    (fd = none →
        forecastDashboard model fd = .fallbackWarning ∧
        suggestionsView model fd = .unavailableError) ∧
    (∀ payload : ForecastPayload, fd = some payload → payload.daily = none →
        forecastDashboard model fd = .fallbackWarning ∧
        suggestionsView model fd = .unavailableError) ∧
    (∀ df proba, forecastDashboard model fd = .metrics df proba →
        ∃ m payload dd, model = some m ∧ fd = some payload ∧
          payload.daily = some dd ∧ input_df dd = some df) ∧
    (∀ df pred proba risk adv,
        suggestionsView model fd = .suggestion df pred proba risk adv →
        ∃ m payload dd, model = some m ∧ fd = some payload ∧
          payload.daily = some dd ∧ input_df dd = some df) ∧
    (∀ m payload dd, model = some m → fd = some payload →
        payload.daily = some dd → input_df dd = none →
        forecastDashboard model fd = .uncaughtIndexError ∧
        suggestionsView model fd = .uncaughtIndexError) := by
  refine ⟨?_, ?_, ?_, ?_, ?_, ?_⟩
  · rintro rfl
    cases fd <;> exact ⟨rfl, rfl⟩
  · rintro rfl
    cases model <;> exact ⟨rfl, rfl⟩
  · rintro payload rfl hd
    cases model with
    | none => exact ⟨rfl, rfl⟩
    | some m => constructor <;> simp [forecastDashboard, suggestionsView, hd]
  · intro df proba h
    obtain ⟨m, p, dd, hm, hp, hd, hdf, _⟩ := forecastDashboard_metrics_inv h
    exact ⟨m, p, dd, hm, hp, hd, hdf⟩
  · intro df pred proba risk adv h
    obtain ⟨m, p, dd, hm, hp, hd, hdf, _⟩ := suggestionsView_suggestion_inv h
    exact ⟨m, p, dd, hm, hp, hd, hdf⟩
  · rintro m payload dd rfl rfl hd hdf
    constructor <;> simp [forecastDashboard, suggestionsView, hd, hdf]

/-- C7: whenever either view computes a prediction, the classifier input
passed to `predict` and `predict_proba` is exactly the three features
`temperature_2m_max`, `temperature_2m_min`, `windspeed_10m_max`, taken from
the first element of the forecast's daily arrays, in that fixed column
order and with no other columns — and both methods receive that same
`input_df`. -/
theorem classifier_input_schema (model : Option RainModel)
    (fd : Option ForecastPayload) :
    (∀ df proba, forecastDashboard model fd = .metrics df proba →
        ∃ m payload dd tmax tmin wind, model = some m ∧ fd = some payload ∧
          payload.daily = some dd ∧
          dd.temperature_2m_max.head? = some tmax ∧
          dd.temperature_2m_min.head? = some tmin ∧
          dd.windspeed_10m_max.head? = some wind ∧
          df = [("temperature_2m_max", tmax), ("temperature_2m_min", tmin),
            ("windspeed_10m_max", wind)] ∧
          proba = m.predict_proba df) ∧
    (∀ df pred proba risk adv,
        suggestionsView model fd = .suggestion df pred proba risk adv →
        ∃ m payload dd tmax tmin wind, model = some m ∧ fd = some payload ∧
          payload.daily = some dd ∧
          dd.temperature_2m_max.head? = some tmax ∧
          dd.temperature_2m_min.head? = some tmin ∧
          dd.windspeed_10m_max.head? = some wind ∧
          df = [("temperature_2m_max", tmax), ("temperature_2m_min", tmin),
            ("windspeed_10m_max", wind)] ∧
          pred = m.predict df ∧ proba = m.predict_proba df) := by
  constructor
  · intro df proba h
    obtain ⟨m, payload, dd, hm, hp, hd, hdf, hproba⟩ :=
      forecastDashboard_metrics_inv h
    obtain ⟨tmax, tmin, wind, h1, h2, h3, hdfeq⟩ := input_df_some hdf
    exact ⟨m, payload, dd, tmax, tmin, wind, hm, hp, hd, h1, h2, h3, hdfeq, hproba⟩
  · intro df pred proba risk adv h
    obtain ⟨m, payload, dd, hm, hp, hd, hdf, hpred, hproba, _⟩ :=
      suggestionsView_suggestion_inv h
    obtain ⟨tmax, tmin, wind, h1, h2, h3, hdfeq⟩ := input_df_some hdf
    exact ⟨m, payload, dd, tmax, tmin, wind, hm, hp, hd, h1, h2, h3, hdfeq,
      hpred, hproba⟩

/-- C3 counterexample: at event date 2024-12-31 (all five archive requests
succeeding) the returned years are 2020..2024 — each offset date
`date - i*365 days` lands on Jan 1 or 2 of the FOLLOWING year because the
fixed 365-day step undercounts leap days.  The first pair (offset i = 5)
has year 2020, not 2024 - 5; the pair with year 2024 matches `2024 - i`
for NO `i` in 1..5. -/
theorem history_year_offset_cex :
    (get_historical_daily_rain ⟨2024, 12, 31⟩ histAllOk).map HistPair.year
        = [2020, 2021, 2022, 2023, 2024] ∧
    2024 - 5 ≠ 2020 ∧
    (∀ i : Nat, 1 ≤ i → i ≤ 5 → 2024 - i ≠ 2024) := by
  refine ⟨by decide, by decide, ?_⟩
  intro i h1 h5
  omega

/-- C3 amended: every returned pair's year equals the calendar year of the
offset date `event_date - i*365 days` for its producing offset `i` (one
pair per succeeding offset, processed i = 5..1); by the fixed 365-day
approximation this year can be `date.year - i + 1` instead of
`date.year - i` when the leap-day drift crosses a year boundary. -/
theorem history_years_amended (event_date : Date) (resp : Nat → HistResponse) :
    get_historical_daily_rain event_date resp
      = ([5, 4, 3, 2, 1].filter (fun i => (histHead (resp i)).isSome)).map
          (fun i => ⟨(event_date.subDays (i * 365)).year,
            (histHead (resp i)).getD none⟩) := by
  have hg : ∀ i : Nat, ∀ p ∈ histStep event_date i (resp i),
      (⟨(event_date.subDays (i * 365)).year,
        (histHead (resp i)).getD none⟩ : HistPair) = p := by
    intro i p hp
    rw [histStep_eq_histHead] at hp
    cases hh : histHead (resp i) with
    | none => rw [hh] at hp; cases hp
    | some v => rw [hh] at hp; cases hp; rfl
  unfold get_historical_daily_rain
  rw [filterMap_eq_map_filter _ _ _ hg]
  congr 1
  apply List.filter_congr
  intro i _
  rw [histStep_eq_histHead]
  cases histHead (resp i) <;> rfl

/-- C4: the history fetch is best-effort and total — each per-offset
failure (request exception, missing `daily` or `precipitation_sum` key,
empty array) is swallowed individually, so the result has between 0 and 5
pairs, one per surviving offset, ordered from the oldest offset (i = 5) to
the most recent (i = 1); making any one offset fail only drops that
offset's pair (the result is a sublist of the original). -/
theorem history_partial_failure (event_date : Date) (resp : Nat → HistResponse) :
    (get_historical_daily_rain event_date resp).length ≤ 5 ∧
    get_historical_daily_rain event_date resp
      = ([5, 4, 3, 2, 1].filter
          (fun i => (histStep event_date i (resp i)).isSome)).map
          (fun i => (histStep event_date i (resp i)).getD ⟨0, none⟩) ∧
    ∀ i : Nat, List.Sublist
        (get_historical_daily_rain event_date (Function.update resp i .fail))
        (get_historical_daily_rain event_date resp) := by
  refine ⟨?_, ?_, ?_⟩
  · exact le_trans (List.length_filterMap_le _ _) (by decide)
  · apply filterMap_eq_map_filter
    intro i p hp
    simp only [Option.mem_def] at hp
    rw [hp]
    rfl
  · intro i
    apply filterMap_sublist_of_agree
    intro j _
    by_cases hji : j = i
    · subst hji
      left
      rw [Function.update_same]
      rfl
    · right
      rw [Function.update_noteq hji]

/-- C9 (spec-modelled cache): starting from an empty cache, two
`fetch_forecast` calls with the same `(lat, lon, date)` key, the second
within the one-hour time-to-live of the first, issue exactly one network
request between them and return equal results. -/
theorem fetch_forecast_ttl (net : ForecastKey → HttpOutcome) (k : ForecastKey)
    (t0 t1 : Nat) (h1 : t1 < t0 + forecastTtl) :
    (fetch_forecast net
        (fetch_forecast net (TtlCache.empty ForecastKey (Option ForecastPayload)) k t0).2.1
        k t1).1
      = (fetch_forecast net
          (TtlCache.empty ForecastKey (Option ForecastPayload)) k t0).1 ∧
    ((if (fetch_forecast net
          (TtlCache.empty ForecastKey (Option ForecastPayload)) k t0).2.2
        then 1 else 0)
      + (if (fetch_forecast net
          (fetch_forecast net (TtlCache.empty ForecastKey (Option ForecastPayload)) k t0).2.1
          k t1).2.2 then 1 else 0) = 1) := by
  have hfirst : fetch_forecast net
      (TtlCache.empty ForecastKey (Option ForecastPayload)) k t0
      = ((get_forecast_data (net k)).1,
          ⟨[(k, (get_forecast_data (net k)).1, t0)]⟩, true) := rfl
  have hsecond : fetch_forecast net
      (⟨[(k, (get_forecast_data (net k)).1, t0)]⟩ :
        TtlCache ForecastKey (Option ForecastPayload)) k t1
      = ((get_forecast_data (net k)).1,
          ⟨[(k, (get_forecast_data (net k)).1, t0)]⟩, false) := by
    unfold fetch_forecast cachedCall ttlLookup ttlFind
    rw [if_pos ⟨rfl, h1⟩]
  rw [hfirst, hsecond]
  exact ⟨rfl, rfl⟩

/-- C10: `get_historical_daily_rain` does not validate the rainfall value:
whenever an offset's response has a `daily.precipitation_sum` array with at
least one element, the pair (year of the offset date, first element) is in
the result — even when that first element is JSON `null` (`none`), which is
not treated as a per-offset failure. -/
theorem history_null_rainfall_kept (event_date : Date)
    (resp : Nat → HistResponse) (i : Nat) (body : HistJson) (d : HistDaily)
    (v : Option ℚ) (tl : List (Option ℚ))
    (hi : i ∈ [5, 4, 3, 2, 1])
    (hresp : resp i = .ok body) (hdaily : body.daily = some d)
    (hsum : d.precipitation_sum = some (v :: tl)) :
    (⟨(event_date.subDays (i * 365)).year, v⟩ : HistPair)
      ∈ get_historical_daily_rain event_date resp := by
  apply List.mem_filterMap.2
  refine ⟨i, hi, ?_⟩
  rw [hresp]
  simp [histStep, hdaily, hsum]

/-- C10 witness: a `null` daily value at offset i = 5 of event date
2025-06-15 yields the pair (2020, none) in the result. -/
theorem history_null_rainfall_kept_witness :
    (⟨2020, none⟩ : HistPair)
      ∈ get_historical_daily_rain ⟨2025, 6, 15⟩ histNullResp :=
  history_null_rainfall_kept ⟨2025, 6, 15⟩ histNullResp 5
    ⟨some ⟨some [none]⟩⟩ ⟨some [none]⟩ none [] (by decide) rfl rfl rfl

/-- C9 witness: a concrete network oracle, key and a pair of call times
1800 seconds apart. -/
theorem fetch_forecast_ttl_witness :
    (fetch_forecast demoNet
        (fetch_forecast demoNet (TtlCache.empty ForecastKey (Option ForecastPayload)) demoKey 0).2.1
        demoKey 1800).1
      = (fetch_forecast demoNet
          (TtlCache.empty ForecastKey (Option ForecastPayload)) demoKey 0).1 ∧
    ((if (fetch_forecast demoNet
          (TtlCache.empty ForecastKey (Option ForecastPayload)) demoKey 0).2.2
        then 1 else 0)
      + (if (fetch_forecast demoNet
          (fetch_forecast demoNet (TtlCache.empty ForecastKey (Option ForecastPayload)) demoKey 0).2.1
          demoKey 1800).2.2 then 1 else 0) = 1) :=
  fetch_forecast_ttl demoNet demoKey 0 1800 (by decide)

end WillItRain
